import Mathlib

/-!
Verification of the geo-referencing core of the custom-map repository.

The definitions below are a shallow embedding of the TypeScript source:
* `src/src/index.ts` — `calculateBounds`, `calculateBoundsFromCorner`,
  `applyAdjustment`, `decodePolyline`, `geocodeIntersection`, and the
  `/api/ai/deep-refine` endpoint's clamping / `shouldContinue` logic;
* `src/src/server/lib/roads.ts` — `decodePolyline` (identical algorithm);
* `src/src/server/lib/geocoding.ts` — `geocodeIntersection` (identical logic).

JavaScript `number` arithmetic is embedded as real-number arithmetic (`ℝ`);
the polyline decoder's 32-bit bitwise arithmetic is embedded exactly over
`Nat`/`Int` with explicit two's-complement handling.
-/

namespace CustomMap

/-- `{lat, lng}` point, from the `LatLng`-shaped literals in `index.ts`. -/
structure LatLng where
  lat : ℝ
  lng : ℝ

/-- `type Bounds = {north, south, east, west}` from `src/src/index.ts` lines 6-11. -/
@[ext]
structure Bounds where
  north : ℝ
  south : ℝ
  east : ℝ
  west : ℝ

/-- `shiftMeters: {north, east}` component of `RefinementAdjustment`. -/
structure ShiftMeters where
  north : ℝ
  east : ℝ

/-- `type RefinementAdjustment` from `src/src/index.ts` lines 62-67. -/
structure RefinementAdjustment where
  shiftMeters : ShiftMeters
  scaleFactor : ℝ
  confidence : ℝ
  reasoning : String

/-- The `cornerPosition` union type of `calculateBoundsFromCorner`
(`"northwest" | "northeast" | "southwest" | "southeast"`). -/
inductive CornerPosition where
  | northwest
  | northeast
  | southwest
  | southeast
deriving DecidableEq

/-- `const metersPerLngDeg = Math.cos((lat * Math.PI) / 180) * 111_000`,
recomputed identically in `calculateBounds`, `calculateBoundsFromCorner`
and `applyAdjustment`. -/
noncomputable def metersPerLngDeg (lat : ℝ) : ℝ :=
  Real.cos (lat * Real.pi / 180) * 111000

/-- `widthMeters` from the shared aspect-ratio branch
(`if (aspectRatio >= 1) widthMeters = sizeMeters else widthMeters = sizeMeters * aspectRatio`). -/
noncomputable def widthMeters (sizeMeters aspectRatio : ℝ) : ℝ :=
  if 1 ≤ aspectRatio then sizeMeters else sizeMeters * aspectRatio

/-- `heightMeters` from the shared aspect-ratio branch
(`if (aspectRatio >= 1) heightMeters = sizeMeters / aspectRatio else heightMeters = sizeMeters`). -/
noncomputable def heightMeters (sizeMeters aspectRatio : ℝ) : ℝ :=
  if 1 ≤ aspectRatio then sizeMeters / aspectRatio else sizeMeters

/-- `calculateBounds` from `src/src/index.ts` lines 485-531: bounds from a
center point, a size (longest side, meters) and an aspect ratio. -/
noncomputable def calculateBounds (center : LatLng) (sizeMeters aspectRatio : ℝ) : Bounds :=
  let latDelta := heightMeters sizeMeters aspectRatio / 111000 / 2
  let lngDelta := widthMeters sizeMeters aspectRatio / metersPerLngDeg center.lat / 2
  { north := center.lat + latDelta
    south := center.lat - latDelta
    east := center.lng + lngDelta
    west := center.lng - lngDelta }

/-- `calculateBoundsFromCorner` from `src/src/index.ts` lines 407-482: bounds
anchored at a named corner.  The `default` branch of the source `switch` is
unreachable for the four-variant union and repeats the `northwest` case. -/
noncomputable def calculateBoundsFromCorner (corner : LatLng) (cornerPosition : CornerPosition)
    (sizeMeters aspectRatio : ℝ) : Bounds :=
  let latDelta := heightMeters sizeMeters aspectRatio / 111000
  let lngDelta := widthMeters sizeMeters aspectRatio / metersPerLngDeg corner.lat
  match cornerPosition with
  | .northwest =>
      { north := corner.lat, south := corner.lat - latDelta
        east := corner.lng + lngDelta, west := corner.lng }
  | .northeast =>
      { north := corner.lat, south := corner.lat - latDelta
        east := corner.lng, west := corner.lng - lngDelta }
  | .southwest =>
      { north := corner.lat + latDelta, south := corner.lat
        east := corner.lng + lngDelta, west := corner.lng }
  | .southeast =>
      { north := corner.lat + latDelta, south := corner.lat
        east := corner.lng, west := corner.lng - lngDelta }

/-- `applyAdjustment` from `src/src/index.ts` lines 534-569: shift the center
by `shiftMeters` (converted to degrees at the current center's latitude) and
scale both spans by `scaleFactor`. -/
noncomputable def applyAdjustment (currentBounds : Bounds)
    (adjustment : RefinementAdjustment) : Bounds :=
  let currentCenterLat := (currentBounds.north + currentBounds.south) / 2
  let currentCenterLng := (currentBounds.east + currentBounds.west) / 2
  let latShift := adjustment.shiftMeters.north / 111000
  let lngShift := adjustment.shiftMeters.east / metersPerLngDeg currentCenterLat
  let newCenterLat := currentCenterLat + latShift
  let newCenterLng := currentCenterLng + lngShift
  let newLatSpan := (currentBounds.north - currentBounds.south) * adjustment.scaleFactor
  let newLngSpan := (currentBounds.east - currentBounds.west) * adjustment.scaleFactor
  { north := newCenterLat + newLatSpan / 2
    south := newCenterLat - newLatSpan / 2
    east := newCenterLng + newLngSpan / 2
    west := newCenterLng - newLngSpan / 2 }

/-- Center latitude of a bounds, `(bounds.north + bounds.south) / 2`,
as computed throughout `index.ts`. -/
noncomputable def centerLat (b : Bounds) : ℝ := (b.north + b.south) / 2

/-- Center longitude of a bounds, `(bounds.east + bounds.west) / 2`. -/
noncomputable def centerLng (b : Bounds) : ℝ := (b.east + b.west) / 2

/-- North-axis displacement in meters of `b`'s center from `orig`'s center:
`(currentCenter.lat - originalCenter.lat) * 111_000`
(`src/src/index.ts` lines 1339-1340). -/
noncomputable def northOffsetMeters (orig b : Bounds) : ℝ :=
  (centerLat b - centerLat orig) * 111000

/-- East-axis displacement in meters of `b`'s center from `orig`'s center,
with the longitude conversion evaluated at latitude `atLat`:
`(currentCenter.lng - originalCenter.lng) * 111_000 * Math.cos((lat * Math.PI) / 180)`
(`src/src/index.ts` lines 1341-1344). -/
noncomputable def eastOffsetMeters (orig b : Bounds) (atLat : ℝ) : ℝ :=
  (centerLng b - centerLng orig) * 111000 * Real.cos (atLat * Real.pi / 180)

/-- The in-place clamping of a parsed adjustment against `originalBounds`
performed by the `/api/ai/deep-refine` endpoint (`src/src/index.ts` lines
1328-1364); returns the (possibly clamped) adjustment and the
`boundsClamped` flag. -/
noncomputable def deepRefineClamp (originalBounds currentBounds : Bounds)
    (maxShiftMeters : ℝ) (adjustment : RefinementAdjustment) :
    RefinementAdjustment × Prop :=
  let currentOffsetNorth := northOffsetMeters originalBounds currentBounds
  let currentOffsetEast :=
    eastOffsetMeters originalBounds currentBounds (centerLat currentBounds)
  let proposedOffsetNorth := currentOffsetNorth + adjustment.shiftMeters.north
  let proposedOffsetEast := currentOffsetEast + adjustment.shiftMeters.east
  let north' :=
    if maxShiftMeters < |proposedOffsetNorth| then
      Real.sign proposedOffsetNorth * maxShiftMeters - currentOffsetNorth
    else adjustment.shiftMeters.north
  let east' :=
    if maxShiftMeters < |proposedOffsetEast| then
      Real.sign proposedOffsetEast * maxShiftMeters - currentOffsetEast
    else adjustment.shiftMeters.east
  (⟨⟨north', east'⟩, adjustment.scaleFactor, adjustment.confidence,
      adjustment.reasoning⟩,
    maxShiftMeters < |proposedOffsetNorth| ∨ maxShiftMeters < |proposedOffsetEast|)

/-- The `complete` event payload of one `/api/ai/deep-refine` iteration
(`src/src/index.ts` lines 1323-1387): the (post-clamp) adjustment, the new
bounds, and the `boundsClamped` / `shouldContinue` flags. -/
structure DeepRefineResult where
  adjustment : Option RefinementAdjustment
  newBounds : Option Bounds
  boundsClamped : Prop
  shouldContinue : Prop

/-- One iteration of the `/api/ai/deep-refine` endpoint after the AI response
has been parsed (`src/src/index.ts` lines 1323-1387): clamp the adjustment
against `originalBounds` when the latter is present, apply it, and derive
`shouldContinue` from the adjustment object as it stands after clamping. -/
noncomputable def deepRefineStep (currentBounds : Bounds) (originalBounds : Option Bounds)
    (maxShiftMeters : ℝ) (adjustment : Option RefinementAdjustment) :
    DeepRefineResult :=
  match adjustment with
  | none =>
      { adjustment := none, newBounds := none
        boundsClamped := False, shouldContinue := False }
  | some adj =>
      let clampResult : RefinementAdjustment × Prop :=
        match originalBounds with
        | some ob => deepRefineClamp ob currentBounds maxShiftMeters adj
        | none => (adj, False)
      { adjustment := some clampResult.1
        newBounds := some (applyAdjustment currentBounds clampResult.1)
        boundsClamped := clampResult.2
        shouldContinue :=
          clampResult.1.confidence < 0.9 ∧
            (2 < |clampResult.1.shiftMeters.north| ∨
              2 < |clampResult.1.shiftMeters.east|) }

/-- Two's-complement reinterpretation of a 32-bit word (a `Nat` below `2^32`)
as a signed integer, as JavaScript's `ToInt32` does. -/
def int32 (r : Nat) : Int :=
  if r < 2 ^ 31 then (r : Int) else (r : Int) - 2 ^ 32

/-- The zig-zag step of the polyline decoder:
`(result & 1) !== 0 ? ~(result >> 1) : result >> 1`, with `>>` the
sign-propagating 32-bit shift (floor division by 2 of the signed value)
and `~v = -v - 1`. -/
def zigzagDecode (r : Nat) : Int :=
  if r % 2 = 1 then -((int32 r).fdiv 2) - 1 else (int32 r).fdiv 2

/-- One inner `do ... while (byte >= 0x20)` loop of `decodePolyline`
(`src/src/index.ts` lines 251-258 and 268-275, identically
`src/src/server/lib/roads.ts` lines 21-26 and 35-40): accumulate 5-bit
groups into `result` and advance the cursor.  Reading past the end of the
string yields `NaN`, for which `NaN & 0x1f` is `0` and `NaN >= 0x20` is
false, so the empty-list case returns `result` unchanged and stops. -/
def parseVarint : Nat → Nat → List Nat → Nat × List Nat
  | _, result, [] => (result, [])
  | shift, result, c :: rest =>
    let byte : Int := (c : Int) - 63
    let chunk : Nat := (byte % 32).toNat
    let result' : Nat := result ||| ((chunk <<< (shift % 32)) % 2 ^ 32)
    if 32 ≤ byte then parseVarint (shift + 5) result' rest else (result', rest)

/-- The outer `while (idx < encoded.length)` loop of `decodePolyline`, with
explicit fuel: each iteration decodes a latitude varint then a longitude
varint, accumulates the zig-zag deltas, and emits the running integer totals
(the `lat`/`lng` accumulators, in units of `1e-5` degrees).  `none` means
the fuel ran out. -/
def decodeGo : Nat → Int → Int → List Nat → Option (List (Int × Int))
  | 0, _, _, _ => none
  | _ + 1, _, _, [] => some []
  | fuel + 1, lat, lng, c :: rest =>
    let p1 := parseVarint 0 0 (c :: rest)
    let lat' := lat + zigzagDecode p1.1
    let p2 := parseVarint 0 0 p1.2
    let lng' := lng + zigzagDecode p2.1
    match decodeGo fuel lat' lng' p2.2 with
    | none => none
    | some ps => some ((lat', lng') :: ps)

/-- `decodePolyline` from `src/src/index.ts` lines 239-288 (identically
`src/src/server/lib/roads.ts` lines 9-52), over the string's character
codes; each emitted accumulator pair is divided by `1e5` as in
`points.push({lat: lat / 1e5, lng: lng / 1e5})`.  A fuel of `length + 1`
for the outer loop is always sufficient. -/
def decodePolyline (encoded : String) : List (ℚ × ℚ) :=
  let codes := encoded.data.map Char.toNat
  ((decodeGo (codes.length + 1) 0 0 codes).getD []).map
    (fun p => ((p.1 : ℚ) / 100000, (p.2 : ℚ) / 100000))

/-- `geocodeIntersection` from `src/src/index.ts` lines 381-403 (identically
`src/src/server/lib/geocoding.ts` lines 37-56), parametrized by the external
`geocodeAddress` collaborator `g`; also returns the list of queries issued,
in order, for observability of which phrasings were attempted. -/
def geocodeIntersection {α : Type} (g : String → Option α)
    (road1 road2 city state : String) : Option α × List String :=
  let intersectionQuery := road1 ++ " & " ++ road2 ++ ", " ++ city ++ ", " ++ state
  match g intersectionQuery with
  | some result => (some result, [intersectionQuery])
  | none =>
    let fallbackQuery := road1 ++ " and " ++ road2 ++ ", " ++ city ++ ", " ++ state
    (g fallbackQuery, [intersectionQuery, fallbackQuery])

/-! ### Helper lemmas -/

lemma cos_deg_pos {lat : ℝ} (h1 : -90 < lat) (h2 : lat < 90) :
    0 < Real.cos (lat * Real.pi / 180) := by
  have hp : 0 < Real.pi := Real.pi_pos
  apply Real.cos_pos_of_mem_Ioo
  constructor
  · have h : 0 < (lat + 90) * Real.pi := mul_pos (by linarith) hp
    nlinarith
  · have h : 0 < (90 - lat) * Real.pi := mul_pos (by linarith) hp
    nlinarith

lemma heightMeters_pos {s a : ℝ} (hs : 0 < s) (ha : 0 < a) :
    0 < heightMeters s a := by
  unfold heightMeters
  split
  · exact div_pos hs ha
  · exact hs

lemma widthMeters_pos {s a : ℝ} (hs : 0 < s) (ha : 0 < a) :
    0 < widthMeters s a := by
  unfold widthMeters
  split
  · exact hs
  · exact mul_pos hs ha

lemma metersPerLngDeg_pos {lat : ℝ} (h1 : -90 < lat) (h2 : lat < 90) :
    0 < metersPerLngDeg lat :=
  mul_pos (cos_deg_pos h1 h2) (by norm_num)

/-! ### C3 — the null adjustment is an identity of `applyAdjustment` -/

/-- C3: for every bounds `b`, applying the adjustment with zero shift and
scale factor 1 returns `b` exactly (in real arithmetic, as the embedding
works over `ℝ`). -/
theorem applyAdjustment_null_identity (b : Bounds) (confidence : ℝ) (reasoning : String) :
    applyAdjustment b ⟨⟨0, 0⟩, 1, confidence, reasoning⟩ = b := by
  ext <;> simp [applyAdjustment] <;> ring

/-! ### C2 — corner anchoring exactness -/

/-- C2: for every corner point, size and aspect ratio, the named corner of
`calculateBoundsFromCorner`'s result carries the input coordinates exactly,
and the opposite corner is offset by the full height in latitude degrees
(`heightMeters / 111000`) and the full width in longitude degrees
(`widthMeters / (cos(corner.lat·π/180) · 111000)`). -/
theorem calculateBoundsFromCorner_anchoring (corner : LatLng) (sizeMeters aspectRatio : ℝ)
    (_hs : 0 < sizeMeters) (_ha : 0 < aspectRatio) :
    calculateBoundsFromCorner corner .northwest sizeMeters aspectRatio =
      ⟨corner.lat,
       corner.lat - heightMeters sizeMeters aspectRatio / 111000,
       corner.lng + widthMeters sizeMeters aspectRatio /
         (Real.cos (corner.lat * Real.pi / 180) * 111000),
       corner.lng⟩ ∧
    calculateBoundsFromCorner corner .northeast sizeMeters aspectRatio =
      ⟨corner.lat,
       corner.lat - heightMeters sizeMeters aspectRatio / 111000,
       corner.lng,
       corner.lng - widthMeters sizeMeters aspectRatio /
         (Real.cos (corner.lat * Real.pi / 180) * 111000)⟩ ∧
    calculateBoundsFromCorner corner .southwest sizeMeters aspectRatio =
      ⟨corner.lat + heightMeters sizeMeters aspectRatio / 111000,
       corner.lat,
       corner.lng + widthMeters sizeMeters aspectRatio /
         (Real.cos (corner.lat * Real.pi / 180) * 111000),
       corner.lng⟩ ∧
    calculateBoundsFromCorner corner .southeast sizeMeters aspectRatio =
      ⟨corner.lat + heightMeters sizeMeters aspectRatio / 111000,
       corner.lat,
       corner.lng,
       corner.lng - widthMeters sizeMeters aspectRatio /
         (Real.cos (corner.lat * Real.pi / 180) * 111000)⟩ := by
  refine ⟨?_, ?_, ?_, ?_⟩ <;> simp [calculateBoundsFromCorner, metersPerLngDeg]

/-- Witness for C2 at corner `(0, 0)`, `sizeMeters = 100`, `aspectRatio = 1`. -/
theorem calculateBoundsFromCorner_anchoring_witness :
    calculateBoundsFromCorner ⟨0, 0⟩ .northwest 100 1 =
      ⟨(⟨0, 0⟩ : LatLng).lat,
       (⟨0, 0⟩ : LatLng).lat - heightMeters 100 1 / 111000,
       (⟨0, 0⟩ : LatLng).lng + widthMeters 100 1 /
         (Real.cos ((⟨0, 0⟩ : LatLng).lat * Real.pi / 180) * 111000),
       (⟨0, 0⟩ : LatLng).lng⟩ :=
  (calculateBoundsFromCorner_anchoring ⟨0, 0⟩ 100 1 (by norm_num) (by norm_num)).1

/-! ### C4 — `north > south`, `east > west` is preserved -/

/-- C4: every bounds produced by `calculateBounds` or
`calculateBoundsFromCorner` with positive size, positive aspect ratio and
latitude strictly between −90 and 90, and every bounds produced by
`applyAdjustment` from a valid bounds with a positive scale factor and
center latitude strictly between −90 and 90, satisfies
`north > south` and `east > west`. -/
theorem bounds_invariant_preserved :
    (∀ (c : LatLng) (s a : ℝ), 0 < s → 0 < a → -90 < c.lat → c.lat < 90 →
      (calculateBounds c s a).south < (calculateBounds c s a).north ∧
      (calculateBounds c s a).west < (calculateBounds c s a).east) ∧
    (∀ (c : LatLng) (pos : CornerPosition) (s a : ℝ),
      0 < s → 0 < a → -90 < c.lat → c.lat < 90 →
      (calculateBoundsFromCorner c pos s a).south <
        (calculateBoundsFromCorner c pos s a).north ∧
      (calculateBoundsFromCorner c pos s a).west <
        (calculateBoundsFromCorner c pos s a).east) ∧
    (∀ (b : Bounds) (adj : RefinementAdjustment),
      b.south < b.north → b.west < b.east → 0 < adj.scaleFactor →
      -90 < centerLat b → centerLat b < 90 →
      (applyAdjustment b adj).south < (applyAdjustment b adj).north ∧
      (applyAdjustment b adj).west < (applyAdjustment b adj).east) := by
  refine ⟨?_, ?_, ?_⟩
  · intro c s a hs ha h1 h2
    have hh : 0 < heightMeters s a / 111000 / 2 := by
      have := heightMeters_pos hs ha
      positivity
    have hw : 0 < widthMeters s a / metersPerLngDeg c.lat / 2 := by
      have h := widthMeters_pos hs ha
      have hm := metersPerLngDeg_pos h1 h2
      positivity
    constructor <;> simp [calculateBounds] <;> linarith
  · intro c pos s a hs ha h1 h2
    have hh : 0 < heightMeters s a / 111000 := by
      have := heightMeters_pos hs ha
      positivity
    have hw : 0 < widthMeters s a / metersPerLngDeg c.lat := by
      have h := widthMeters_pos hs ha
      have hm := metersPerLngDeg_pos h1 h2
      positivity
    cases pos <;> constructor <;>
      simp [calculateBoundsFromCorner] <;> linarith
  · intro b adj hns hwe hk _h1 _h2
    have hlat : 0 < (b.north - b.south) * adj.scaleFactor :=
      mul_pos (by linarith) hk
    have hlng : 0 < (b.east - b.west) * adj.scaleFactor :=
      mul_pos (by linarith) hk
    constructor <;> simp [applyAdjustment] <;> nlinarith

/-- Witness for C4 at concrete inputs: center/corner `(0, 0)`, size 100,
aspect ratio 1; and the bounds `⟨1, −1, 1, −1⟩` with the null adjustment. -/
theorem bounds_invariant_preserved_witness :
    ((calculateBounds ⟨0, 0⟩ 100 1).south < (calculateBounds ⟨0, 0⟩ 100 1).north ∧
      (calculateBounds ⟨0, 0⟩ 100 1).west < (calculateBounds ⟨0, 0⟩ 100 1).east) ∧
    ((calculateBoundsFromCorner ⟨0, 0⟩ .northwest 100 1).south <
        (calculateBoundsFromCorner ⟨0, 0⟩ .northwest 100 1).north ∧
      (calculateBoundsFromCorner ⟨0, 0⟩ .northwest 100 1).west <
        (calculateBoundsFromCorner ⟨0, 0⟩ .northwest 100 1).east) ∧
    ((applyAdjustment ⟨1, -1, 1, -1⟩ ⟨⟨0, 0⟩, 1, 1, ""⟩).south <
        (applyAdjustment ⟨1, -1, 1, -1⟩ ⟨⟨0, 0⟩, 1, 1, ""⟩).north ∧
      (applyAdjustment ⟨1, -1, 1, -1⟩ ⟨⟨0, 0⟩, 1, 1, ""⟩).west <
        (applyAdjustment ⟨1, -1, 1, -1⟩ ⟨⟨0, 0⟩, 1, 1, ""⟩).east) :=
  ⟨bounds_invariant_preserved.1 ⟨0, 0⟩ 100 1 (by norm_num) (by norm_num)
      (by norm_num) (by norm_num),
    bounds_invariant_preserved.2.1 ⟨0, 0⟩ .northwest 100 1 (by norm_num)
      (by norm_num) (by norm_num) (by norm_num),
    bounds_invariant_preserved.2.2 ⟨1, -1, 1, -1⟩ ⟨⟨0, 0⟩, 1, 1, ""⟩
      (by norm_num) (by norm_num) (by norm_num)
      (by simp [centerLat]) (by simp [centerLat])⟩

/-! ### C8 — center symmetry and square bounds for aspect ratio 1 -/

/-- C8: `calculateBounds c s 1` is symmetric around `c` and yields a square
in meters: the latitude extent times 111000 equals the longitude extent
times `cos(c.lat·π/180) · 111000` exactly (hence within the claimed 0.1%
tolerance). -/
theorem calculateBounds_symmetric_square (c : LatLng) (s : ℝ)
    (h1 : -90 < c.lat) (h2 : c.lat < 90) (_hs : 0 < s) :
    centerLat (calculateBounds c s 1) = c.lat ∧
    centerLng (calculateBounds c s 1) = c.lng ∧
    ((calculateBounds c s 1).north - (calculateBounds c s 1).south) * 111000 =
      ((calculateBounds c s 1).east - (calculateBounds c s 1).west) *
        Real.cos (c.lat * Real.pi / 180) * 111000 ∧
    |((calculateBounds c s 1).north - (calculateBounds c s 1).south) * 111000 -
        ((calculateBounds c s 1).east - (calculateBounds c s 1).west) *
          Real.cos (c.lat * Real.pi / 180) * 111000| ≤
      0.001 * |((calculateBounds c s 1).east - (calculateBounds c s 1).west) *
        Real.cos (c.lat * Real.pi / 180) * 111000| := by
  have hcos : Real.cos (c.lat * Real.pi / 180) ≠ 0 := ne_of_gt (cos_deg_pos h1 h2)
  have hsq :
      ((calculateBounds c s 1).north - (calculateBounds c s 1).south) * 111000 =
        ((calculateBounds c s 1).east - (calculateBounds c s 1).west) *
          Real.cos (c.lat * Real.pi / 180) * 111000 := by
    simp only [calculateBounds, metersPerLngDeg, heightMeters, widthMeters]
    norm_num
    field_simp
    ring
  refine ⟨?_, ?_, hsq, ?_⟩
  · simp [centerLat, calculateBounds]
  · simp [centerLng, calculateBounds]
  · rw [hsq]
    simp
    positivity

/-- Witness for C8 at center `(0, 0)` and `sizeMeters = 100`. -/
theorem calculateBounds_symmetric_square_witness :
    centerLat (calculateBounds ⟨0, 0⟩ 100 1) = (⟨0, 0⟩ : LatLng).lat ∧
    centerLng (calculateBounds ⟨0, 0⟩ 100 1) = (⟨0, 0⟩ : LatLng).lng ∧
    ((calculateBounds ⟨0, 0⟩ 100 1).north - (calculateBounds ⟨0, 0⟩ 100 1).south) * 111000 =
      ((calculateBounds ⟨0, 0⟩ 100 1).east - (calculateBounds ⟨0, 0⟩ 100 1).west) *
        Real.cos ((⟨0, 0⟩ : LatLng).lat * Real.pi / 180) * 111000 ∧
    |((calculateBounds ⟨0, 0⟩ 100 1).north - (calculateBounds ⟨0, 0⟩ 100 1).south) * 111000 -
        ((calculateBounds ⟨0, 0⟩ 100 1).east - (calculateBounds ⟨0, 0⟩ 100 1).west) *
          Real.cos ((⟨0, 0⟩ : LatLng).lat * Real.pi / 180) * 111000| ≤
      0.001 * |((calculateBounds ⟨0, 0⟩ 100 1).east - (calculateBounds ⟨0, 0⟩ 100 1).west) *
        Real.cos ((⟨0, 0⟩ : LatLng).lat * Real.pi / 180) * 111000| :=
  calculateBounds_symmetric_square ⟨0, 0⟩ 100 (by norm_num) (by norm_num) (by norm_num)

/-! ### C5 / C6 — polyline decoder -/

lemma parseVarint_snd_length_le :
    ∀ (l : List Nat) (shift result : Nat),
      ((parseVarint shift result l).2).length ≤ l.length := by
  intro l
  induction l with
  | nil => intro shift result; simp [parseVarint]
  | cons c rest ih =>
      intro shift result
      simp only [parseVarint]
      split
      · exact le_trans (ih _ _) (Nat.le_succ _)
      · simp

lemma parseVarint_cons_length_lt (shift result c : Nat) (rest : List Nat) :
    ((parseVarint shift result (c :: rest)).2).length < (c :: rest).length := by
  simp only [parseVarint]
  split
  · exact Nat.lt_succ_of_le (parseVarint_snd_length_le _ _ _)
  · simp

lemma decodeGo_isSome_of_lt :
    ∀ (fuel : Nat) (lat lng : Int) (l : List Nat), l.length < fuel →
      (decodeGo fuel lat lng l).isSome = true := by
  intro fuel
  induction fuel with
  | zero => intro lat lng l h; omega
  | succ n ih =>
      intro lat lng l h
      match l with
      | [] => simp [decodeGo]
      | c :: rest =>
          have h1 := parseVarint_cons_length_lt 0 0 c rest
          have h2 := parseVarint_snd_length_le (parseVarint 0 0 (c :: rest)).2 0 0
          have h3 :
              ((parseVarint 0 0 (parseVarint 0 0 (c :: rest)).2).2).length < n := by
            simp only [List.length_cons] at h h1
            omega
          have h4 := ih (lat + zigzagDecode (parseVarint 0 0 (c :: rest)).1)
            (lng + zigzagDecode (parseVarint 0 0 (parseVarint 0 0 (c :: rest)).2).1)
            (parseVarint 0 0 (parseVarint 0 0 (c :: rest)).2).2 h3
          rw [Option.isSome_iff_exists] at h4
          obtain ⟨ps, hps⟩ := h4
          simp only [decodeGo]
          rw [hps]
          simp

/-- C6: `decodePolyline` terminates on every input: the fuelled embedding of
the outer `while (idx < encoded.length)` loop never exhausts a fuel equal to
the string length plus one (the amount `decodePolyline` supplies), because
each inner continuation-bit loop (`parseVarint`) strictly advances the
cursor on a nonempty remainder.  Both facts are stated. -/
theorem decodePolyline_terminates :
    (∀ (shift result c : Nat) (rest : List Nat),
      ((parseVarint shift result (c :: rest)).2).length < (c :: rest).length) ∧
    (∀ encoded : String,
      (decodeGo ((encoded.data.map Char.toNat).length + 1) 0 0
        (encoded.data.map Char.toNat)).isSome = true) :=
  ⟨parseVarint_cons_length_lt,
    fun _ => decodeGo_isSome_of_lt _ 0 0 _ (Nat.lt_succ_self _)⟩

/-- C5: `decodePolyline` maps the empty string to the empty list, and the
fixture string from Google's published polyline example to exactly three
points beginning at `(38.5, −120.2)`. -/
theorem decodePolyline_fixture :
    decodePolyline "" = [] ∧
    (decodePolyline "_p~iF~ps|U_ulLnnqC_mqNvxq`@").length = 3 ∧
    (decodePolyline "_p~iF~ps|U_ulLnnqC_mqNvxq`@").head? =
      some ((38.5 : ℚ), (-120.2 : ℚ)) := by
  have hint :
      decodeGo ((("_p~iF~ps|U_ulLnnqC_mqNvxq`@" : String).data.map Char.toNat).length + 1)
          0 0 (("_p~iF~ps|U_ulLnnqC_mqNvxq`@" : String).data.map Char.toNat) =
        some [((3850000 : ℤ), (-12020000 : ℤ)), (4070000, -12095000),
          (4325200, -12645300)] := by
    decide
  refine ⟨rfl, ?_, ?_⟩
  · simp only [decodePolyline]
    rw [hint]
    rfl
  · simp only [decodePolyline]
    rw [hint]
    simp only [Option.getD_some, List.map_cons, List.head?_cons, Option.some_inj,
      Prod.mk.injEq]
    constructor <;> norm_num

/-! ### C9 — intersection geocoding query order -/

/-- C9: `geocodeIntersection` first issues the query
`"{road1} & {road2}, {city}, {state}"`; a non-null result is returned
unchanged with only that query attempted, and otherwise the result is that
of the single fallback query `"{road1} and {road2}, {city}, {state}"`, with
exactly those two queries attempted in that order. -/
theorem geocodeIntersection_fallback_order {α : Type} (g : String → Option α)
    (road1 road2 city state : String) :
    (∀ r, g (road1 ++ " & " ++ road2 ++ ", " ++ city ++ ", " ++ state) = some r →
      geocodeIntersection g road1 road2 city state =
        (some r, [road1 ++ " & " ++ road2 ++ ", " ++ city ++ ", " ++ state])) ∧
    (g (road1 ++ " & " ++ road2 ++ ", " ++ city ++ ", " ++ state) = none →
      geocodeIntersection g road1 road2 city state =
        (g (road1 ++ " and " ++ road2 ++ ", " ++ city ++ ", " ++ state),
          [road1 ++ " & " ++ road2 ++ ", " ++ city ++ ", " ++ state,
            road1 ++ " and " ++ road2 ++ ", " ++ city ++ ", " ++ state])) := by
  constructor
  · intro r hr
    simp [geocodeIntersection, hr]
  · intro hr
    simp [geocodeIntersection, hr]

/-- Witness for C9 with a concrete geocoder that answers only the
`" & "`-phrased query. -/
theorem geocodeIntersection_fallback_order_witness :
    geocodeIntersection
        (fun s => if s = "Main St & Oak Ave, Phoenix, AZ" then some 0 else none)
        "Main St" "Oak Ave" "Phoenix" "AZ" =
      (some 0, ["Main St" ++ " & " ++ "Oak Ave" ++ ", " ++ "Phoenix" ++ ", " ++ "AZ"]) :=
  (geocodeIntersection_fallback_order
      (fun s => if s = "Main St & Oak Ave, Phoenix, AZ" then some 0 else none)
      "Main St" "Oak Ave" "Phoenix" "AZ").1 0 (by decide)

/-! ### C7 — the `shouldContinue` convergence test -/

/-- C7: in the deep-refine completion result, `shouldContinue` holds exactly
when an adjustment is present in the result and that adjustment (the object
as it stands after any clamping, which is also the one reported in the
completion payload) has `confidence < 0.9` and a shift exceeding 2 meters in
absolute value on at least one axis. -/
theorem deepRefine_shouldContinue_iff (current : Bounds) (originalBounds : Option Bounds)
    (maxShiftMeters : ℝ) (adjustment : Option RefinementAdjustment) :
    (deepRefineStep current originalBounds maxShiftMeters adjustment).shouldContinue ↔
      ∃ a, (deepRefineStep current originalBounds maxShiftMeters adjustment).adjustment =
          some a ∧
        a.confidence < 0.9 ∧
        (2 < |a.shiftMeters.north| ∨ 2 < |a.shiftMeters.east|) := by
  cases adjustment with
  | none => simp [deepRefineStep]
  | some adj => cases originalBounds <;> simp [deepRefineStep]

/-! ### C10 — no clamping without `originalBounds` -/

/-- C10: when `originalBounds` is absent but an adjustment is parsed, the
deep-refine iteration performs no clamping: the reported adjustment is the
parsed one unmodified, the new bounds are exactly
`applyAdjustment currentBounds adjustment`, and `boundsClamped` is false. -/
theorem deepRefine_no_originalBounds_no_clamp (current : Bounds) (maxShiftMeters : ℝ)
    (adj : RefinementAdjustment) :
    (deepRefineStep current none maxShiftMeters (some adj)).adjustment = some adj ∧
    (deepRefineStep current none maxShiftMeters (some adj)).newBounds =
      some (applyAdjustment current adj) ∧
    ¬ (deepRefineStep current none maxShiftMeters (some adj)).boundsClamped := by
  refine ⟨rfl, rfl, ?_⟩
  simp [deepRefineStep]

/-! ### C1 — the cumulative-displacement clamp -/

lemma abs_sign_mul_le (x M : ℝ) (hM : 0 ≤ M) : |Real.sign x * M| ≤ M := by
  rcases lt_trichotomy x 0 with h | h | h
  · rw [Real.sign_of_neg h]
    simp [abs_of_nonneg hM]
  · rw [h, Real.sign_zero, zero_mul, abs_zero]
    exact hM
  · rw [Real.sign_of_pos h, one_mul, abs_of_nonneg hM]

/-- The one-axis clamp of the deep-refine endpoint keeps the post-shift
offset within `[-M, M]`: either the proposed total offset already fits, or
it is truncated to land exactly at `±M`. -/
lemma clampAxis_bound (curOff a M : ℝ) (hM : 0 ≤ M) :
    |curOff + (if M < |curOff + a| then Real.sign (curOff + a) * M - curOff else a)| ≤ M := by
  split_ifs with h
  · have he : curOff + (Real.sign (curOff + a) * M - curOff) = Real.sign (curOff + a) * M := by
      ring
    rw [he]
    exact abs_sign_mul_le _ _ hM
  · push_neg at h
    exact h

lemma northOffsetMeters_applyAdjustment (orig b : Bounds) (adj : RefinementAdjustment) :
    northOffsetMeters orig (applyAdjustment b adj) =
      northOffsetMeters orig b + adj.shiftMeters.north := by
  simp only [northOffsetMeters, centerLat, applyAdjustment]
  ring

lemma eastOffsetMeters_applyAdjustment (orig b : Bounds) (adj : RefinementAdjustment)
    (h : Real.cos (centerLat b * Real.pi / 180) ≠ 0) :
    eastOffsetMeters orig (applyAdjustment b adj) (centerLat b) =
      eastOffsetMeters orig b (centerLat b) + adj.shiftMeters.east := by
  simp only [eastOffsetMeters, centerLng, centerLat, applyAdjustment, metersPerLngDeg]
  simp only [centerLat] at h
  set K := Real.cos ((b.north + b.south) / 2 * Real.pi / 180) with hK
  field_simp
  ring

lemma deepRefineClamp_north (orig current : Bounds) (M : ℝ) (adj : RefinementAdjustment) :
    (deepRefineClamp orig current M adj).1.shiftMeters.north =
      if M < |northOffsetMeters orig current + adj.shiftMeters.north| then
        Real.sign (northOffsetMeters orig current + adj.shiftMeters.north) * M -
          northOffsetMeters orig current
      else adj.shiftMeters.north := rfl

lemma deepRefineClamp_east (orig current : Bounds) (M : ℝ) (adj : RefinementAdjustment) :
    (deepRefineClamp orig current M adj).1.shiftMeters.east =
      if M < |eastOffsetMeters orig current (centerLat current) + adj.shiftMeters.east| then
        Real.sign (eastOffsetMeters orig current (centerLat current) + adj.shiftMeters.east) * M -
          eastOffsetMeters orig current (centerLat current)
      else adj.shiftMeters.east := rfl

/-- One clamped-and-applied deep-refine step keeps the center within
`maxShiftMeters` of the original center on both axes, with the east axis
measured — as the endpoint itself measures it — at the pre-adjustment
current center's latitude. -/
lemma deepRefineStep_offsets_le (orig current : Bounds) (M : ℝ)
    (adj : RefinementAdjustment) (hM : 0 ≤ M) :
    |northOffsetMeters orig
        (applyAdjustment current (deepRefineClamp orig current M adj).1)| ≤ M ∧
    |eastOffsetMeters orig
        (applyAdjustment current (deepRefineClamp orig current M adj).1)
        (centerLat current)| ≤ M := by
  constructor
  · rw [northOffsetMeters_applyAdjustment, deepRefineClamp_north]
    exact clampAxis_bound _ _ _ hM
  · by_cases hc : Real.cos (centerLat current * Real.pi / 180) = 0
    · rw [eastOffsetMeters, hc, mul_zero, abs_zero]
      exact hM
    · rw [eastOffsetMeters_applyAdjustment _ _ _ hc, deepRefineClamp_east]
      exact clampAxis_bound _ _ _ hM

/-- A whole deep-refinement run as seen by the server: starting from `b0`,
each iteration clamps the next proposed adjustment against `orig` and
applies it, exactly as `/api/ai/deep-refine` does when `originalBounds` is
provided. -/
noncomputable def deepRefineTrajectory (orig : Bounds) (M : ℝ) (b0 : Bounds)
    (adjs : List RefinementAdjustment) : Bounds :=
  adjs.foldl (fun b adj => applyAdjustment b (deepRefineClamp orig b M adj).1) b0

/-- C1 (amended): for every deep-refinement iteration with `originalBounds`
provided and an adjustment parsed, and for every iteration of any sequence
of proposed shifts however large, the returned center stays within
`maxShiftMeters ≥ 0` of the original center on the north axis, and on the
east axis when the displacement is measured with the longitude conversion
factor evaluated at the pre-adjustment current center's latitude (the
latitude the code uses to convert the east shift into degrees). -/
theorem deepRefine_cumulative_shift_clamped (orig : Bounds) (M : ℝ) (hM : 0 ≤ M) :
    (∀ (current : Bounds) (adj : RefinementAdjustment) (nb : Bounds),
        (deepRefineStep current (some orig) M (some adj)).newBounds = some nb →
        |northOffsetMeters orig nb| ≤ M ∧
        |eastOffsetMeters orig nb (centerLat current)| ≤ M) ∧
    (∀ (b0 : Bounds) (adjs : List RefinementAdjustment) (adj : RefinementAdjustment),
        |northOffsetMeters orig (deepRefineTrajectory orig M b0 (adjs ++ [adj]))| ≤ M ∧
        |eastOffsetMeters orig (deepRefineTrajectory orig M b0 (adjs ++ [adj]))
            (centerLat (deepRefineTrajectory orig M b0 adjs))| ≤ M) := by
  constructor
  · intro current adj nb hnb
    have hb : nb = applyAdjustment current (deepRefineClamp orig current M adj).1 := by
      simp only [deepRefineStep, Option.some_inj] at hnb
      exact hnb.symm
    rw [hb]
    exact deepRefineStep_offsets_le orig current M adj hM
  · intro b0 adjs adj
    have ht : deepRefineTrajectory orig M b0 (adjs ++ [adj]) =
        applyAdjustment (deepRefineTrajectory orig M b0 adjs)
          (deepRefineClamp orig (deepRefineTrajectory orig M b0 adjs) M adj).1 := by
      simp [deepRefineTrajectory, List.foldl_append]
    rw [ht]
    exact deepRefineStep_offsets_le orig _ M adj hM

/-- Witness for C1 (amended) at the default cap 200, a one-element sequence
and the null adjustment. -/
theorem deepRefine_cumulative_shift_clamped_witness :
    |northOffsetMeters ⟨1, -1, 1, -1⟩
        (deepRefineTrajectory ⟨1, -1, 1, -1⟩ 200 ⟨1, -1, 1, -1⟩
          ([] ++ [⟨⟨0, 0⟩, 1, 1, ""⟩]))| ≤ 200 ∧
    |eastOffsetMeters ⟨1, -1, 1, -1⟩
        (deepRefineTrajectory ⟨1, -1, 1, -1⟩ 200 ⟨1, -1, 1, -1⟩
          ([] ++ [⟨⟨0, 0⟩, 1, 1, ""⟩]))
        (centerLat (deepRefineTrajectory ⟨1, -1, 1, -1⟩ 200 ⟨1, -1, 1, -1⟩ []))| ≤ 200 :=
  (deepRefine_cumulative_shift_clamped ⟨1, -1, 1, -1⟩ 200 (by norm_num)).2
    ⟨1, -1, 1, -1⟩ [] ⟨⟨0, 0⟩, 1, 1, ""⟩

/-- Counterexample to C1 as stated: measuring the returned bounds' east
displacement with the cosine of the *returned* center's latitude (the
natural reading of "cos(center latitude)" for the returned bounds), one
clamped-and-applied iteration can exceed `maxShiftMeters`.  Here the
original and current center sit at latitude 60° and the adjustment shifts
60° south and `maxShiftMeters` east: no clamping triggers, yet the east
displacement re-measured at the new center latitude 0° is twice the cap. -/
theorem deepRefine_shift_cap_counterexample :
    (deepRefineStep ⟨61, 59, 1, -1⟩ (some ⟨61, 59, 1, -1⟩) 6660000
        (some ⟨⟨-6660000, 6660000⟩, 1, 0, ""⟩)).newBounds =
      some (⟨1, -1, 121, 119⟩ : Bounds) ∧
    ¬ |eastOffsetMeters ⟨61, 59, 1, -1⟩ ⟨1, -1, 121, 119⟩
        (centerLat (⟨1, -1, 121, 119⟩ : Bounds))| ≤ 6660000 := by
  have hclamp : (deepRefineClamp ⟨61, 59, 1, -1⟩ ⟨61, 59, 1, -1⟩ 6660000
      ⟨⟨-6660000, 6660000⟩, 1, 0, ""⟩).1 = ⟨⟨-6660000, 6660000⟩, 1, 0, ""⟩ := by
    simp only [deepRefineClamp]
    norm_num [northOffsetMeters, eastOffsetMeters, centerLat, centerLng]
  have happly : applyAdjustment ⟨61, 59, 1, -1⟩ ⟨⟨-6660000, 6660000⟩, 1, 0, ""⟩ =
      ⟨1, -1, 121, 119⟩ := by
    have h60 : ((61 : ℝ) + 59) / 2 = 60 := by norm_num
    have hcos : Real.cos ((60 : ℝ) * Real.pi / 180) = 1 / 2 := by
      have hp : (60 : ℝ) * Real.pi / 180 = Real.pi / 3 := by ring
      rw [hp, Real.cos_pi_div_three]
    ext <;> simp only [applyAdjustment, metersPerLngDeg] <;> rw [h60] <;>
      try rw [hcos]
    all_goals norm_num
  constructor
  · have hstep : (deepRefineStep ⟨61, 59, 1, -1⟩ (some ⟨61, 59, 1, -1⟩) 6660000
        (some ⟨⟨-6660000, 6660000⟩, 1, 0, ""⟩)).newBounds =
        some (applyAdjustment ⟨61, 59, 1, -1⟩
          (deepRefineClamp ⟨61, 59, 1, -1⟩ ⟨61, 59, 1, -1⟩ 6660000
            ⟨⟨-6660000, 6660000⟩, 1, 0, ""⟩).1) := rfl
    rw [hstep, hclamp, happly]
  · push_neg
    have hc0 : centerLat (⟨1, -1, 121, 119⟩ : Bounds) = 0 := by
      norm_num [centerLat]
    rw [hc0]
    norm_num [eastOffsetMeters, centerLng]

end CustomMap
